import Mathlib

/-!
Shallow embedding of the youtube-mcp-server monitoring/insight subsystem:
the memory store (src/memory/store.ts), the four agent heuristics
(src/agents/*.ts) and the orchestrator (src/agents/orchestrator.ts),
together with proofs of the specification claims about them.

Modelling conventions:
* TypeScript arrays are Lean lists; Array.prototype.push appends at the end,
  slice(-n) (n >= 1) keeps the last n elements, slice(0, n) is List.take n.
* JavaScript Date.now() / new Date().toISOString() / Math.random() are passed
  in as explicit parameters (epoch milliseconds as Nat/Int, ISO strings and
  random suffixes as String).
* The external YouTube capabilities (searchVideos, getVideoComments,
  getChannelVideos from src/services/youtube.ts) are abstracted as functions
  returning Except, collected in an AgentEnv record; a thrown upstream error
  is an Except.error value.  Date parsing of publishedAt strings is an
  abstract parseDate field of the environment.
* async functions become pure functions: every load-mutate-save store helper
  is modelled as a function from the loaded MemoryState (plus its clock
  inputs) to the updated state and return value.
-/

/-! ## Data model (src/memory/store.ts, interfaces) -/

/-- The closed insight kind of InsightEntry.type:
"buying_signal" | "competitor_move" | "sentiment" | "trend". -/
inductive InsightType where
  | buying_signal
  | competitor_move
  | sentiment
  | trend
deriving DecidableEq, Repr

/-- MonitorTarget.type: "channel" | "keyword". -/
inductive MonType where
  | channel
  | keyword
deriving DecidableEq, Repr

/-- InsightEntry.source: { videoId?: string; channelId?: string; query?: string }. -/
structure SourceRef where
  videoId : Option String := none
  channelId : Option String := none
  query : Option String := none
deriving DecidableEq, Repr

/-- UserProfile from store.ts. -/
structure UserProfile where
  industry : Option String := none
  competitors : List String := []
  keywords : List String := []
  trackedChannels : List String := []
  notes : List String := []
  updatedAt : String := ""
deriving DecidableEq, Repr

/-- MonitorTarget from store.ts. -/
structure MonitorTarget where
  id : String
  type : MonType
  value : String
  lastCheckedAt : Option String := none
  createdAt : String
deriving DecidableEq, Repr

/-- InsightEntry from store.ts. -/
structure InsightEntry where
  id : String
  agentId : String
  type : InsightType
  title : String
  detail : String
  source : SourceRef
  createdAt : String
deriving DecidableEq, Repr

/-- ConversationEntry.role: "user" | "agent". -/
inductive ConvRole where
  | user
  | agent
deriving DecidableEq, Repr

/-- ConversationEntry from store.ts. -/
structure ConversationEntry where
  role : ConvRole
  agentId : Option String := none
  content : String
  timestamp : String
deriving DecidableEq, Repr

/-- MemoryState from store.ts: the persisted aggregate root. -/
structure MemoryState where
  user : UserProfile
  monitors : List MonitorTarget
  insights : List InsightEntry
  conversations : List ConversationEntry
deriving DecidableEq, Repr

/-- DEFAULT_STATE from store.ts; the updatedAt stamp new Date().toISOString()
taken at module load is the nowIso parameter. -/
def defaultState (nowIso : String) : MemoryState :=
  { user :=
      { competitors := []
        keywords := []
        trackedChannels := []
        notes := []
        updatedAt := nowIso }
    monitors := []
    insights := []
    conversations := [] }

/-! ## Store operations (src/memory/store.ts) -/

/-- loadMemory from store.ts.  The file system is abstracted as the optional
file content (none when existsSync is false); JSON.parse is abstracted as the
parse argument, whose thrown exception is an Except.error.  When the file does
not exist the function returns structuredClone(DEFAULT_STATE); otherwise it
returns JSON.parse(raw), letting any parse error propagate. -/
def loadMemory (file : Option String) (parse : String → Except String MemoryState)
    (nowIso : String) : Except String MemoryState :=
  match file with
  | none => .ok (defaultState nowIso)
  | some raw => parse raw

/-- The (type, value) match predicate used by addMonitor's find. -/
def monMatches (ty : MonType) (value : String) (m : MonitorTarget) : Bool :=
  m.type == ty && m.value == value

/-- addMonitor from store.ts, applied to the loaded state: find an existing
monitor with the same (type, value) and return it unchanged, otherwise create
a monitor with id mon_${Date.now()}, push it and return it.  nowMs is
Date.now(), nowIso is new Date().toISOString(). -/
def addMonitor (state : MemoryState) (ty : MonType) (value : String)
    (nowMs : Nat) (nowIso : String) : MonitorTarget × MemoryState :=
  match state.monitors.find? (monMatches ty value) with
  | some existing => (existing, state)
  | none =>
    let monitor : MonitorTarget :=
      { id := "mon_" ++ toString nowMs
        type := ty
        value := value
        createdAt := nowIso }
    (monitor, { state with monitors := state.monitors ++ [monitor] })

/-- The insight payload passed to addInsight:
Omit<InsightEntry, "id" | "createdAt">. -/
structure NewInsight where
  agentId : String
  type : InsightType
  title : String
  detail : String
  source : SourceRef
deriving DecidableEq, Repr

/-- The cap applied by addInsight and addConversation:
if (list.length > cap) list = list.slice(-cap) — slice(-cap) is the last cap
elements, i.e. drop (length - cap). -/
def keepLast (cap : Nat) (l : List α) : List α :=
  if l.length > cap then l.drop (l.length - cap) else l

/-- addInsight from store.ts, applied to the loaded state: build the entry
with id ins_${Date.now()}_${Math.random().toString(36).slice(2, 6)} and
createdAt now, push it, then keep the last 500 insights
(slice(-500) when length > 500). -/
def addInsight (state : MemoryState) (ins : NewInsight)
    (nowMs : Nat) (rand : String) (nowIso : String) : InsightEntry × MemoryState :=
  let entry : InsightEntry :=
    { id := "ins_" ++ toString nowMs ++ "_" ++ rand
      agentId := ins.agentId
      type := ins.type
      title := ins.title
      detail := ins.detail
      source := ins.source
      createdAt := nowIso }
  (entry, { state with insights := keepLast 500 (state.insights ++ [entry]) })

/-- getInsights from store.ts, applied to the loaded state's insight list.
filter?.agentId is a JavaScript truthiness test, so an empty-string agentId
filter is skipped; filter?.type is an enum whose values are never the empty
string, so its truthiness is isSome; filter?.limit || 50 maps a missing or
zero limit to 50; results.slice(-(limit)) keeps the last limit entries. -/
def getInsights (insights : List InsightEntry) (agentId : Option String)
    (ty : Option InsightType) (limit : Option Nat) : List InsightEntry :=
  let r1 : List InsightEntry :=
    match agentId with
    | some a => if a.isEmpty then insights else insights.filter (fun i => i.agentId == a)
    | none => insights
  let r2 : List InsightEntry :=
    match ty with
    | some t => r1.filter (fun i => i.type == t)
    | none => r1
  let n : Nat :=
    match limit with
    | some k => if k == 0 then 50 else k
    | none => 50
  r2.drop (r2.length - n)

/-- The combined filter predicate described by the specification of
queryInsights: an entry matches when it agrees with the agentId filter (if
given) and with the type filter (if given).  Used to compare getInsights
against the spec's "entries matching both filters" wording. -/
def specMatches (agentId : Option String) (ty : Option InsightType)
    (i : InsightEntry) : Bool :=
  (match agentId with
   | none => true
   | some a => i.agentId == a)
  && (match ty with
      | none => true
      | some t => i.type == t)

/-- GetInsightsInputSchema.limit from src/schemas/youtube.ts:
z.number().int().min(1).max(100).default(20) — a missing limit is filled in
as 20 by the schema before the store is reached; an out-of-range limit is
rejected by validation. -/
def schemaFillLimit (raw : Option Nat) : Except String Nat :=
  match raw with
  | none => .ok 20
  | some n => if 1 ≤ n && n ≤ 100 then .ok n else .error "limit out of range"

/-! ## Concrete sample data used by witnesses and counterexamples -/

/-- A sample insight payload. -/
def mkIns : NewInsight :=
  { agentId := "trend-spotter"
    type := .trend
    title := "t"
    detail := "d"
    source := {} }

/-- A sample stored insight entry. -/
def mkEntry : InsightEntry :=
  { id := "ins_0_aaaa"
    agentId := "trend-spotter"
    type := .trend
    title := "t"
    detail := "d"
    source := {}
    createdAt := "2026-01-01T00:00:00Z" }

/-- A memory state holding exactly 500 insights. -/
def mkFull : MemoryState :=
  { defaultState "t" with insights := List.replicate 500 mkEntry }

/-- A memory state already holding two monitors with the same
(type, value) pair — a degenerate store addMonitor never produces on its
own, used to refute the unrestricted idempotence claim. -/
def dupMonState : MemoryState :=
  { defaultState "t" with monitors :=
      [ { id := "mon_1", type := .keyword, value := "x", createdAt := "a" },
        { id := "mon_2", type := .keyword, value := "x", createdAt := "b" } ] }

/-- A JSON.parse stand-in that always throws. -/
def failingParse : String → Except String MemoryState :=
  fun _ => .error "SyntaxError: Unexpected token"

/-- A stored insight whose agentId is the non-empty string "x". -/
def cexInsight : InsightEntry :=
  { id := "ins_1"
    agentId := "x"
    type := .trend
    title := "t"
    detail := "d"
    source := {}
    createdAt := "c" }

/-! ## Theorems: store claims -/

/-- keepLast is a plain suffix drop. -/
lemma keepLast_eq_drop {α : Type} (cap : Nat) (l : List α) :
    keepLast cap l = l.drop (l.length - cap) := by
  unfold keepLast
  by_cases hc : l.length > cap
  · simp [hc]
  · have h0 : l.length - cap = 0 := by omega
    simp [hc, h0]

/-- keepLast never returns more than cap elements. -/
lemma keepLast_length_le {α : Type} (cap : Nat) (l : List α) :
    (keepLast cap l).length ≤ cap := by
  unfold keepLast
  by_cases hc : l.length > cap
  · simp only [hc, if_true, List.length_drop]
    omega
  · simp only [hc, if_false]
    omega

/-- C1: for every memory state whose insight list has length at most 500,
addInsight yields a state holding exactly the 500 most-recently-appended
entries (all of them when fewer), in append order; at exactly 500 the oldest
entry alone is evicted. -/
theorem addInsight_cap (state : MemoryState) (ins : NewInsight)
    (nowMs : Nat) (rand : String) (nowIso : String)
    (h : state.insights.length ≤ 500) :
    ((addInsight state ins nowMs rand nowIso).2.insights =
      (state.insights ++ [(addInsight state ins nowMs rand nowIso).1]).drop
        (state.insights.length + 1 - 500))
    ∧ (addInsight state ins nowMs rand nowIso).2.insights.length ≤ 500
    ∧ (state.insights.length = 500 →
        (addInsight state ins nowMs rand nowIso).2.insights =
          state.insights.tail ++ [(addInsight state ins nowMs rand nowIso).1]) := by
  have hres : (addInsight state ins nowMs rand nowIso).2.insights =
      keepLast 500 (state.insights ++ [(addInsight state ins nowMs rand nowIso).1]) := rfl
  have hlen : (state.insights ++ [(addInsight state ins nowMs rand nowIso).1]).length =
      state.insights.length + 1 := by
    simp
  have hle : (state.insights ++ [(addInsight state ins nowMs rand nowIso).1]).length ≤ 501 := by
    omega
  refine ⟨?_, ?_, ?_⟩
  · rw [hres, keepLast_eq_drop 500 _, hlen]
  · rw [hres]
    exact keepLast_length_le 500 _
  · intro h500
    rw [hres, keepLast_eq_drop 500 _, hlen, h500]
    have hone : (500 : Nat) + 1 - 500 = 1 := by omega
    rw [hone, List.drop_append_of_le_length (by omega), List.drop_one]

/-- C1 witness: a concrete state with 500 insights; appending one drops
exactly the oldest. -/
theorem addInsight_cap_witness :
    (mkFull.insights.length ≤ 500)
    ∧ ((addInsight mkFull mkIns 7 "abcd" "t").2.insights =
        (mkFull.insights ++ [(addInsight mkFull mkIns 7 "abcd" "t").1]).drop
          (mkFull.insights.length + 1 - 500)) := by
  have hlen : mkFull.insights.length ≤ 500 := by
    show (List.replicate 500 mkEntry).length ≤ 500
    rw [List.length_replicate]
  exact ⟨hlen, (addInsight_cap mkFull mkIns 7 "abcd" "t" hlen).1⟩

/-- C5: loadMemory returns the freshly-constructed default state when no file
exists, and surfaces any parse error of an existing file to the caller
instead of substituting the default state. -/
theorem loadMemory_default_and_error :
    (∀ (parse : String → Except String MemoryState) (nowIso : String),
        loadMemory none parse nowIso = .ok (defaultState nowIso))
    ∧ (∀ (raw e : String) (parse : String → Except String MemoryState) (nowIso : String),
        parse raw = .error e → loadMemory (some raw) parse nowIso = .error e) := by
  constructor
  · intro parse nowIso
    rfl
  · intro raw e parse nowIso hp
    simpa [loadMemory] using hp

/-- C5 witness: a missing file yields the default state, and a file whose
contents make JSON.parse throw yields exactly that error. -/
theorem loadMemory_default_and_error_witness :
    loadMemory none failingParse "t" = .ok (defaultState "t")
    ∧ failingParse "not json" = .error "SyntaxError: Unexpected token"
    ∧ loadMemory (some "not json") failingParse "t" =
        .error "SyntaxError: Unexpected token" := by
  refine ⟨loadMemory_default_and_error.1 failingParse "t", rfl, ?_⟩
  exact loadMemory_default_and_error.2 "not json" "SyntaxError: Unexpected token"
    failingParse "t" rfl

/-- find? skips a prefix on which the predicate finds nothing. -/
lemma find?_append_of_none {α : Type} (p : α → Bool) (l₁ l₂ : List α)
    (h : l₁.find? p = none) : (l₁ ++ l₂).find? p = l₂.find? p := by
  induction l₁ with
  | nil => simp
  | cons a t ih =>
    rw [List.cons_append]
    cases hpa : p a with
    | true =>
      rw [List.find?_cons_of_pos _ hpa] at h
      exact absurd h (by simp)
    | false =>
      rw [List.find?_cons_of_neg _ (by simp [hpa])] at h
      rw [List.find?_cons_of_neg _ (by simp [hpa])]
      exact ih h

/-- C3 (amended): on a store holding at most one monitor with the given
(type, value) pair, two successive addMonitor calls with that pair leave
exactly one matching monitor, and the second call returns the very target the
first call returned (same id, same createdAt) with the store unchanged. -/
theorem addMonitor_idempotent (state : MemoryState) (ty : MonType) (v : String)
    (n1 n2 : Nat) (i1 i2 : String)
    (h : state.monitors.countP (monMatches ty v) ≤ 1) :
    ((addMonitor (addMonitor state ty v n1 i1).2 ty v n2 i2).2.monitors.countP
        (monMatches ty v) = 1)
    ∧ (addMonitor (addMonitor state ty v n1 i1).2 ty v n2 i2).1 =
        (addMonitor state ty v n1 i1).1
    ∧ (addMonitor (addMonitor state ty v n1 i1).2 ty v n2 i2).2 =
        (addMonitor state ty v n1 i1).2 := by
  cases hf : state.monitors.find? (monMatches ty v) with
  | some e =>
    have hcount : 0 < state.monitors.countP (monMatches ty v) :=
      List.countP_pos_iff.mpr ⟨e, List.mem_of_find?_eq_some hf, List.find?_some hf⟩
    refine ⟨?_, ?_, ?_⟩
    · simp only [addMonitor, hf]
      omega
    · simp only [addMonitor, hf]
    · simp only [addMonitor, hf]
  | none =>
    have hzero : state.monitors.countP (monMatches ty v) = 0 := by
      rw [List.countP_eq_zero]
      intro a ha
      exact List.find?_eq_none.mp hf a ha
    have hself : monMatches ty v
        { id := "mon_" ++ toString n1
          type := ty
          value := v
          createdAt := i1 } = true := by
      cases ty <;> simp [monMatches]
    have hfind2 : (state.monitors ++
        [({ id := "mon_" ++ toString n1, type := ty, value := v,
            createdAt := i1 } : MonitorTarget)]).find? (monMatches ty v) =
        some { id := "mon_" ++ toString n1, type := ty, value := v, createdAt := i1 } := by
      rw [find?_append_of_none _ _ _ hf]
      exact List.find?_cons_of_pos _ hself
    refine ⟨?_, ?_, ?_⟩
    · simp only [addMonitor, hf, hfind2]
      simp [List.countP_append, hzero, List.countP_cons, hself]
    · simp only [addMonitor, hf, hfind2]
    · simp only [addMonitor, hf, hfind2]

/-- C3 counterexample: on a store already holding two monitors with the same
(keyword, "x") pair, two addMonitor calls with that pair do NOT leave exactly
one matching target — both duplicates survive, refuting the claim's
quantification over every store state. -/
theorem addMonitor_idempotent_cex :
    (addMonitor (addMonitor dupMonState .keyword "x" 5 "c").2 .keyword "x" 6 "d").2.monitors.countP
      (monMatches .keyword "x") ≠ 1 := by
  decide

/-- C3 witness: on the empty default store, two addMonitor calls with the
pair (keyword, "x") leave exactly one matching target and the second call
returns the first call's target. -/
theorem addMonitor_idempotent_witness :
    ((defaultState "t").monitors.countP (monMatches .keyword "x") ≤ 1)
    ∧ ((addMonitor (addMonitor (defaultState "t") .keyword "x" 5 "c").2
          .keyword "x" 6 "d").2.monitors.countP (monMatches .keyword "x") = 1)
    ∧ ((addMonitor (addMonitor (defaultState "t") .keyword "x" 5 "c").2
          .keyword "x" 6 "d").1 = (addMonitor (defaultState "t") .keyword "x" 5 "c").1) := by
  refine ⟨by decide, ?_, ?_⟩
  · exact (addMonitor_idempotent (defaultState "t") .keyword "x" 5 6 "c" "d" (by decide)).1
  · exact (addMonitor_idempotent (defaultState "t") .keyword "x" 5 6 "c" "d" (by decide)).2.1

/-- C4: the failing input for the time-based id scheme.  Two addMonitor calls
with distinct (type, value) pairs inside the same Date.now() millisecond
(here 1000) create two distinct stored targets sharing the id "mon_1000" —
the claim that any two distinct targets have distinct ids is violated by the
code. -/
theorem addMonitor_id_collision :
    ((addMonitor (defaultState "t") .channel "a" 1000 "t").1.id =
      (addMonitor (addMonitor (defaultState "t") .channel "a" 1000 "t").2
        .channel "b" 1000 "t").1.id)
    ∧ ((addMonitor (defaultState "t") .channel "a" 1000 "t").1 ≠
        (addMonitor (addMonitor (defaultState "t") .channel "a" 1000 "t").2
          .channel "b" 1000 "t").1)
    ∧ ((addMonitor (defaultState "t") .channel "a" 1000 "t").1 ∈
        (addMonitor (addMonitor (defaultState "t") .channel "a" 1000 "t").2
          .channel "b" 1000 "t").2.monitors)
    ∧ ((addMonitor (addMonitor (defaultState "t") .channel "a" 1000 "t").2
          .channel "b" 1000 "t").1 ∈
        (addMonitor (addMonitor (defaultState "t") .channel "a" 1000 "t").2
          .channel "b" 1000 "t").2.monitors) := by
  decide

/-- specMatches with no filters accepts everything. -/
lemma specMatches_none_none : specMatches none none = fun _ => true := by
  funext i
  simp [specMatches]

/-- specMatches with only an agentId filter. -/
lemma specMatches_some_none (a : String) :
    specMatches (some a) none = fun i => i.agentId == a := by
  funext i
  simp [specMatches]

/-- specMatches with only a type filter. -/
lemma specMatches_none_some (t : InsightType) :
    specMatches none (some t) = fun i => i.type == t := by
  funext i
  simp [specMatches]

/-- specMatches with both filters. -/
lemma specMatches_some_some (a : String) (t : InsightType) :
    specMatches (some a) (some t) = fun i => i.agentId == a && i.type == t := by
  funext i
  simp [specMatches]

/-- C6 (amended): for every agentId filter that is absent or non-empty (the
code treats an empty-string filter as absent) and every limit N at least 1
(the code treats limit 0 as absent), getInsights returns exactly the entries
matching both filters, restricted to the last N of them in append order. -/
theorem getInsights_filter_suffix (insights : List InsightEntry)
    (agentId : Option String) (ty : Option InsightType) (N : Nat)
    (ha : agentId ≠ some "") (hN : 1 ≤ N) :
    getInsights insights agentId ty (some N) =
      (insights.filter (specMatches agentId ty)).drop
        ((insights.filter (specMatches agentId ty)).length - N) := by
  have hN0 : (N == 0) = false := by
    cases N with
    | zero => omega
    | succ n => rfl
  cases agentId with
  | none =>
    cases ty with
    | none => simp [getInsights, specMatches_none_none, hN0]
    | some t => simp [getInsights, specMatches_none_some, hN0]
  | some a =>
    have hae : a.isEmpty = false := by
      cases h' : a.isEmpty
      · rfl
      · exact absurd (congrArg some (String.isEmpty_iff a |>.mp h')) ha
    cases ty with
    | none => simp [getInsights, specMatches_some_none, hN0, hae]
    | some t =>
      have hcomm : (fun (i : InsightEntry) => i.type == t && i.agentId == a) =
          (fun i => i.agentId == a && i.type == t) :=
        funext fun i => Bool.and_comm _ _
      simp [getInsights, specMatches_some_some, hN0, hae, hcomm]

/-- C6 witness: one stored insight with agent "x", filters (agent "x",
type trend), limit 3 — the single matching entry is returned. -/
theorem getInsights_filter_suffix_witness :
    ((some "x" : Option String) ≠ some "") ∧ (1 ≤ 3)
    ∧ getInsights [cexInsight] (some "x") (some .trend) (some 3) =
        (([cexInsight].filter (specMatches (some "x") (some .trend))).drop
          ((([cexInsight].filter (specMatches (some "x") (some .trend)))).length - 3)) := by
  exact ⟨by decide, by decide,
    getInsights_filter_suffix [cexInsight] (some "x") (some .trend) 3 (by decide) (by decide)⟩

/-- C6 counterexample: with filter agentId = "" (an empty string) and
limit = 0, the claim as stated demands the entries whose agentId is "" —
none — restricted to the last 0, i.e. the empty list; the code instead skips
the falsy agentId filter, replaces the falsy limit 0 by 50, and returns the
stored entry whose agentId is "x". -/
theorem getInsights_filter_suffix_cex :
    getInsights [cexInsight] (some "") none (some 0) = [cexInsight]
    ∧ ([cexInsight].filter (specMatches (some "") none)).drop
        (([cexInsight].filter (specMatches (some "") none)).length - 0) = [] := by
  constructor
  · decide
  · decide

/-- C10: a store-level query with no limit (or a limit of 0) is capped at the
last 50 matching entries — getInsights with a missing or zero limit behaves
exactly like limit 50, returns at most 50 entries, and on an unfiltered list
returns precisely the suffix of the last 50 — while the get_insights tool
schema fills a missing limit with its own default of 20 before the store is
reached. -/
theorem getInsights_default_limit (insights : List InsightEntry)
    (agentId : Option String) (ty : Option InsightType) :
    (getInsights insights agentId ty none = getInsights insights agentId ty (some 50))
    ∧ (getInsights insights agentId ty (some 0) = getInsights insights agentId ty (some 50))
    ∧ (getInsights insights agentId ty none).length ≤ 50
    ∧ (getInsights insights none none none = insights.drop (insights.length - 50))
    ∧ schemaFillLimit none = .ok 20 := by
  refine ⟨rfl, rfl, ?_, rfl, rfl⟩
  simp only [getInsights]
  rw [List.length_drop]
  omega

/-! ## Sentiment classifier (src/agents/sentiment-analyst.ts) -/

/-- The four classification outcomes of classifyComment. -/
inductive Sentiment where
  | positive
  | negative
  | neutral
  | request
deriving DecidableEq, Repr

/-- Does the second list start with the first? -/
def listStartsWith {α : Type} [BEq α] : List α → List α → Bool
  | [], _ => true
  | _ :: _, [] => false
  | p :: ps, x :: xs => p == x && listStartsWith ps xs

/-- Is the first list a contiguous infix of the second? -/
def listHasInfix {α : Type} [BEq α] (pat : List α) : List α → Bool
  | [] => pat.isEmpty
  | x :: xs => listStartsWith pat (x :: xs) || listHasInfix pat xs

/-- JavaScript String.prototype.includes: literal substring containment. -/
def strIncludes (hay pat : String) : Bool :=
  listHasInfix pat.toList hay.toList

/-- JavaScript String.prototype.toLowerCase, character by character (all the
vocabularies are plain ASCII). -/
def jsToLower (s : String) : String :=
  String.mk (s.data.map Char.toLower)

/-- negativeSignals from classifyComment. -/
def negativeSignals : List String :=
  ["hate", "worst", "terrible", "disappointed", "broken", "bug", "sucks",
   "awful", "poor", "bad", "frustrat", "annoying", "useless"]

/-- positiveSignals from classifyComment. -/
def positiveSignals : List String :=
  ["love", "amazing", "great", "best", "awesome", "excellent", "perfect",
   "helpful", "fantastic"]

/-- requestSignals from classifyComment. -/
def requestSignals : List String :=
  ["wish", "please add", "should have", "need", "feature", "would be nice",
   "can you add", "suggestion", "hope they"]

/-- classifyComment from sentiment-analyst.ts: lower-case the text, then test
the three vocabularies by literal substring match in the order
request, negative, positive; default neutral. -/
def classifyComment (text : String) : Sentiment :=
  let lower := jsToLower text
  if requestSignals.any (fun s => strIncludes lower s) then .request
  else if negativeSignals.any (fun s => strIncludes lower s) then .negative
  else if positiveSignals.any (fun s => strIncludes lower s) then .positive
  else .neutral

/-! ## External capability model (src/services/youtube.ts interfaces) -/

/-- YouTubeVideo from services/youtube.ts. -/
structure YouTubeVideo where
  videoId : String
  title : String
  description : String
  channelId : String
  channelTitle : String
  publishedAt : String
  thumbnailUrl : String
  viewCount : Option String := none
  likeCount : Option String := none
  commentCount : Option String := none
deriving DecidableEq, Repr

/-- YouTubeComment from services/youtube.ts. -/
structure YouTubeComment where
  commentId : String
  authorName : String
  authorChannelId : Option String := none
  text : String
  likeCount : Nat
  publishedAt : String
  replyCount : Option Nat := none
deriving DecidableEq, Repr

/-- YouTubeSearchResult from services/youtube.ts. -/
structure YouTubeSearchResult where
  videos : List YouTubeVideo
  totalResults : Nat
  nextPageToken : Option String := none
deriving DecidableEq, Repr

/-- YouTubeCommentsResult from services/youtube.ts. -/
structure YouTubeCommentsResult where
  comments : List YouTubeComment
  totalResults : Nat
  nextPageToken : Option String := none
  videoTitle : Option String := none
deriving DecidableEq, Repr

/-- YouTubeChannelVideosResult from services/youtube.ts. -/
structure YouTubeChannelVideosResult where
  videos : List YouTubeVideo
  channelTitle : String
  nextPageToken : Option String := none
deriving DecidableEq, Repr

/-- The environment an agent runs in: the three YouTube capabilities used by
the agents (an upstream throw is Except.error), the current wall clock
Date.now() in epoch milliseconds, and new Date(string).getTime() as an
abstract parseDate. -/
structure AgentEnv where
  searchVideos : String → Nat → Except String YouTubeSearchResult
  getVideoComments : String → Nat → Except String YouTubeCommentsResult
  getChannelVideos : String → Nat → Except String YouTubeChannelVideosResult
  nowMs : Int
  parseDate : String → Int

/-! ## Agent results (src/agents/types.ts) -/

/-- One insight as returned by an agent run (no id / agentId / createdAt —
the orchestrator and store fill those in). -/
structure AgentInsight where
  type : InsightType
  title : String
  detail : String
  source : SourceRef
deriving DecidableEq, Repr

/-- AgentResult from agents/types.ts. -/
structure AgentResult where
  agentId : String
  success : Bool
  summary : String
  insights : List AgentInsight
deriving DecidableEq, Repr

/-! ## Sentiment Analyst run (src/agents/sentiment-analyst.ts) -/

/-- Parameters of the Sentiment Analyst run. -/
structure SentimentParams where
  videoIds : List String
deriving DecidableEq, Repr

/-- The classified comment list: result.comments.map(c => (c, sentiment)). -/
def classifySentiments (comments : List YouTubeComment) :
    List (YouTubeComment × Sentiment) :=
  comments.map (fun c => (c, classifyComment c.text))

/-- classified.filter(c => c.sentiment === "negative"). -/
def negativesOf (comments : List YouTubeComment) : List (YouTubeComment × Sentiment) :=
  (classifySentiments comments).filter (fun p => p.2 == Sentiment.negative)

/-- classified.filter(c => c.sentiment === "request"). -/
def requestsOf (comments : List YouTubeComment) : List (YouTubeComment × Sentiment) :=
  (classifySentiments comments).filter (fun p => p.2 == Sentiment.request)

/-- classified.filter(c => c.sentiment === "positive"). -/
def positivesOf (comments : List YouTubeComment) : List (YouTubeComment × Sentiment) :=
  (classifySentiments comments).filter (fun p => p.2 == Sentiment.positive)

/-- The quote line with like count:
- "text truncated to 120" (n likes). -/
def fmtQuoteLikes (c : YouTubeComment) : String :=
  "- \"" ++ c.text.take 120 ++ "\" (" ++ toString c.likeCount ++ " likes)"

/-- The positive quote line without like count. -/
def fmtQuote (c : YouTubeComment) : String :=
  "- \"" ++ c.text.take 120 ++ "\""

/-- The per-video body of the Sentiment Analyst run (the try block): classify
the fetched comments, then emit up to one sentiment insight for negatives
(5 examples), one buying_signal insight for requests (5 examples), one
sentiment insight for positives (3 examples), in that order. -/
def sentimentProcessVideo (videoId : String) (comments : List YouTubeComment) :
    List AgentInsight :=
  let negatives := negativesOf comments
  let requests := requestsOf comments
  let positives := positivesOf comments
  let negBlock : List AgentInsight :=
    if negatives.length > 0 then
      [ { type := InsightType.sentiment
          title := toString negatives.length ++ " negative comments on video"
          detail := String.intercalate "\n" ((negatives.take 5).map (fun p => fmtQuoteLikes p.1))
          source := { videoId := some videoId } } ]
    else []
  let reqBlock : List AgentInsight :=
    if requests.length > 0 then
      [ { type := InsightType.buying_signal
          title := toString requests.length ++ " feature requests / wishes"
          detail := String.intercalate "\n" ((requests.take 5).map (fun p => fmtQuoteLikes p.1))
          source := { videoId := some videoId } } ]
    else []
  let posBlock : List AgentInsight :=
    if positives.length > 0 then
      [ { type := InsightType.sentiment
          title := toString positives.length ++ " positive comments"
          detail := String.intercalate "\n" ((positives.take 3).map (fun p => fmtQuote p.1))
          source := { videoId := some videoId } } ]
    else []
  negBlock ++ reqBlock ++ posBlock

/-- run from sentiment-analyst.ts: per video fetch up to 50 comments and
process them; a caught fetch error skips the video. -/
def sentimentRun (params : SentimentParams) (env : AgentEnv) : AgentResult :=
  let insights := params.videoIds.flatMap (fun videoId =>
    match env.getVideoComments videoId 50 with
    | .ok result => sentimentProcessVideo videoId result.comments
    | .error _ => [])
  { agentId := "sentiment-analyst"
    success := true
    summary := "Analyzed comments on " ++ toString params.videoIds.length ++
      " video(s). Found " ++ toString insights.length ++ " sentiment insights."
    insights := insights }

/-! ## Competitor Monitor run (src/agents/competitor-monitor.ts) -/

/-- Parameters of the Competitor Monitor run (both optional). -/
structure CompetitorParams where
  channelIds : Option (List String) := none
  keywords : Option (List String) := none
deriving DecidableEq, Repr

/-- JavaScript truthiness of xs?.length for an optional array: true exactly
when the array is present and non-empty. -/
def optListTruthy {α : Type} (o : Option (List α)) : Bool :=
  match o with
  | some l => !l.isEmpty
  | none => false

/-- xs?.length || 0. -/
def optListLen {α : Type} (o : Option (List α)) : Nat :=
  match o with
  | some l => l.length
  | none => 0

/-- 7 days in milliseconds: the Competitor Monitor recency window. -/
def weekMs : Int := 7 * 24 * 60 * 60 * 1000

/-- 14 days in milliseconds: the Trend Spotter recency window. -/
def twoWeeksMs : Int := 14 * 24 * 60 * 60 * 1000

/-- The per-channel body of the Competitor Monitor: fetch up to 5 recent
uploads, keep those published within the last 7 days, and emit one
competitor_move insight when any remain; a caught fetch error skips the
channel.  v.publishedAt.split("T")[0] is the date part of the timestamp. -/
def competitorChannelInsights (env : AgentEnv) (channelId : String) : List AgentInsight :=
  match env.getChannelVideos channelId 5 with
  | .error _ => []
  | .ok result =>
    let recent := result.videos.filter
      (fun v => env.parseDate v.publishedAt > env.nowMs - weekMs)
    if recent.length > 0 then
      [ { type := InsightType.competitor_move
          title := result.channelTitle ++ ": " ++ toString recent.length ++
            " new video(s) this week"
          detail := String.intercalate "\n" (recent.map (fun v =>
            "- \"" ++ v.title ++ "\" (" ++ (v.publishedAt.splitOn "T").headD "" ++ ")"))
          source := { channelId := some channelId } } ]
    else []

/-- The per-keyword body of the Competitor Monitor: search up to 5 videos and
emit one competitor_move insight when any are found; a caught search error
skips the keyword. -/
def competitorKeywordInsights (env : AgentEnv) (keyword : String) : List AgentInsight :=
  match env.searchVideos keyword 5 with
  | .error _ => []
  | .ok result =>
    if result.videos.length > 0 then
      [ { type := InsightType.competitor_move
          title := "\"" ++ keyword ++ "\": " ++ toString result.totalResults ++
            " videos found"
          detail := String.intercalate "\n" ((result.videos.take 3).map (fun v =>
            "- \"" ++ v.title ++ "\" by " ++ v.channelTitle))
          source := { query := some keyword } } ]
    else []

/-- run from competitor-monitor.ts. -/
def competitorRun (params : CompetitorParams) (env : AgentEnv) : AgentResult :=
  let channelInsights :=
    if optListTruthy params.channelIds then
      (params.channelIds.getD []).flatMap (competitorChannelInsights env)
    else []
  let keywordInsights :=
    if optListTruthy params.keywords then
      (params.keywords.getD []).flatMap (competitorKeywordInsights env)
    else []
  let insights := channelInsights ++ keywordInsights
  { agentId := "competitor-monitor"
    success := true
    summary := "Monitored " ++ toString (optListLen params.channelIds) ++
      " channels and " ++ toString (optListLen params.keywords) ++
      " keywords. Found " ++ toString insights.length ++ " insights."
    insights := insights }

/-! ## Trend Spotter run (src/agents/trend-spotter.ts) -/

/-- Parameters of the Trend Spotter run. -/
structure TrendParams where
  keywords : List String
deriving DecidableEq, Repr

/-- JavaScript [...new Set(xs)]: deduplicate keeping first occurrences. -/
def dedupFirst : List String → List String :=
  fun xs => xs.foldl (fun acc x => if acc.contains x then acc else acc ++ [x]) []

/-- The per-keyword body of the Trend Spotter: search up to 10 videos,
compute the subset published within the last 14 days and the distinct channel
titles, and emit one trend insight; a caught search error skips the
keyword. -/
def trendKeywordInsights (env : AgentEnv) (keyword : String) : List AgentInsight :=
  match env.searchVideos keyword 10 with
  | .error _ => []
  | .ok result =>
    let recentVideos := result.videos.filter
      (fun v => env.parseDate v.publishedAt > env.nowMs - twoWeeksMs)
    let channels := dedupFirst (result.videos.map (fun v => v.channelTitle))
    [ { type := InsightType.trend
        title := "\"" ++ keyword ++ "\": " ++ toString result.totalResults ++
          " total, " ++ toString recentVideos.length ++ " in last 2 weeks"
        detail := String.intercalate "\n"
          [ "Top channels: " ++ String.intercalate ", " (channels.take 5),
            if recentVideos.length > 0 then
              "Recent: " ++ String.intercalate ", "
                ((recentVideos.take 3).map (fun v => "\"" ++ v.title ++ "\""))
            else "No recent videos in the last 2 weeks" ]
        source := { query := some keyword } } ]

/-- run from trend-spotter.ts. -/
def trendRun (params : TrendParams) (env : AgentEnv) : AgentResult :=
  let insights := params.keywords.flatMap (trendKeywordInsights env)
  { agentId := "trend-spotter"
    success := true
    summary := "Scanned trends for " ++ toString params.keywords.length ++
      " keyword(s). Found " ++ toString insights.length ++ " trend insights."
    insights := insights }

/-! ## Lead Qualifier run (src/agents/lead-qualifier.ts) -/

/-- Parameters of the Lead Qualifier run. -/
structure LeadParams where
  keywords : List String
  videoIds : Option (List String) := none
deriving DecidableEq, Repr

/-- BUYING_SIGNALS from lead-qualifier.ts. -/
def BUYING_SIGNALS : List String :=
  ["looking for", "recommend", "alternative to", "switch from", "migrate",
   "compared to", "pricing", "worth it", "should I buy", "vs",
   "better than", "replacement", "which is best", "any suggestions",
   "trial", "demo", "enterprise", "startup", "team of", "budget"]

/-- hasBuyingSignal from lead-qualifier.ts: the first matching phrase, if
any (find || null). -/
def hasBuyingSignal (text : String) : Option String :=
  BUYING_SIGNALS.find? (fun s => strIncludes (jsToLower text) s)

/-- Comments paired with their matched buying-signal phrase
(map then filter signal !== null). -/
def signalCommentsOf (comments : List YouTubeComment) : List (YouTubeComment × String) :=
  comments.filterMap (fun c => (hasBuyingSignal c.text).map (fun s => (c, s)))

/-- The per-keyword body of the Lead Qualifier: search 5 videos for the
augmented intent query; when any result, fetch up to 30 comments of the top
result and emit one buying_signal insight if any comment matches; caught
errors at either step skip silently. -/
def leadKeywordInsights (env : AgentEnv) (keyword : String) : List AgentInsight :=
  match env.searchVideos (keyword ++ " review OR comparison OR alternative OR best") 5 with
  | .error _ => []
  | .ok result =>
    match result.videos with
    | [] => []
    | topVideo :: _ =>
      match env.getVideoComments topVideo.videoId 30 with
      | .error _ => []
      | .ok comments =>
        let signalComments := signalCommentsOf comments.comments
        if signalComments.length > 0 then
          [ { type := InsightType.buying_signal
              title := toString signalComments.length ++ " buying signals in \"" ++
                topVideo.title ++ "\""
              detail := String.intercalate "\n" ((signalComments.take 5).map (fun p =>
                "- [" ++ p.2 ++ "] \"" ++ p.1.text.take 100 ++ "\" — " ++
                  p.1.authorName ++ " (" ++ toString p.1.likeCount ++ " likes)"))
              source := { videoId := some topVideo.videoId, query := some keyword } } ]
        else []

/-- The per-video body of the Lead Qualifier for explicitly supplied video
ids: fetch up to 50 comments and emit one buying_signal insight if any
comment matches; a caught fetch error skips the video. -/
def leadVideoInsights (env : AgentEnv) (videoId : String) : List AgentInsight :=
  match env.getVideoComments videoId 50 with
  | .error _ => []
  | .ok comments =>
    let signalComments := signalCommentsOf comments.comments
    if signalComments.length > 0 then
      [ { type := InsightType.buying_signal
          title := toString signalComments.length ++ " buying signals in video comments"
          detail := String.intercalate "\n" ((signalComments.take 5).map (fun p =>
            "- [" ++ p.2 ++ "] \"" ++ p.1.text.take 100 ++ "\" — " ++ p.1.authorName))
          source := { videoId := some videoId } } ]
    else []

/-- run from lead-qualifier.ts. -/
def leadRun (params : LeadParams) (env : AgentEnv) : AgentResult :=
  let keywordInsights := params.keywords.flatMap (leadKeywordInsights env)
  let videoInsights :=
    if optListTruthy params.videoIds then
      (params.videoIds.getD []).flatMap (leadVideoInsights env)
    else []
  let insights := keywordInsights ++ videoInsights
  { agentId := "lead-qualifier"
    success := true
    summary := "Qualified leads across " ++ toString params.keywords.length ++
      " keyword(s) and " ++ toString (optListLen params.videoIds) ++
      " video(s). Found " ++ toString insights.length ++ " buying signal clusters."
    insights := insights }

/-! ## Orchestrator (src/agents/orchestrator.ts) -/

/-- runAgent dispatch over the agents lookup table, for well-typed parameter
bags: a known agent id runs that agent, an unknown id yields the structural
failure result without running anything. -/
def runAgentDispatch (id : String) (cp : CompetitorParams) (sp : SentimentParams)
    (tp : TrendParams) (lp : LeadParams) (env : AgentEnv) : AgentResult :=
  if id = "competitor-monitor" then competitorRun cp env
  else if id = "sentiment-analyst" then sentimentRun sp env
  else if id = "trend-spotter" then trendRun tp env
  else if id = "lead-qualifier" then leadRun lp env
  else { agentId := id, success := false, summary := "Unknown agent: " ++ id, insights := [] }

/-- The structural failure result runAllAgents returns for an unconfigured
profile. -/
def orchestratorNoProfile : AgentResult :=
  { agentId := "orchestrator"
    success := false
    summary := "No user profile configured. Use configure_user to set competitors, keywords, or tracked channels."
    insights := [] }

/-- { ...insight, agentId }: the store payloads runAgent persists for one
agent's returned insights. -/
def tagInsights (agentId : String) (l : List AgentInsight) : List NewInsight :=
  l.map (fun i =>
    { agentId := agentId
      type := i.type
      title := i.title
      detail := i.detail
      source := i.source })

/-- The observable outcome of runAllAgents: the returned results, the agent
ids dispatched through runAgent (in invocation order), and the insight
payloads persisted to the store by those dispatches. -/
structure OrchOutcome where
  results : List AgentResult
  invoked : List String
  persisted : List NewInsight
deriving DecidableEq, Repr

/-- runAllAgents from orchestrator.ts: load the profile; with no tracked
channels, keywords or competitors return the single structural failure;
otherwise conditionally dispatch Competitor Monitor (channels or
competitors; keywords are competitor names suffixed " review"), Trend
Spotter (keywords), Lead Qualifier (keywords or competitors; keywords are
the union of raw keywords and competitor names), collecting results in
invocation order and persisting each dispatched agent's insights. -/
def runAllAgents (state : MemoryState) (env : AgentEnv) : OrchOutcome :=
  let user := state.user
  let hasChannels := !user.trackedChannels.isEmpty
  let hasKeywords := !user.keywords.isEmpty
  let hasCompetitors := !user.competitors.isEmpty
  if !hasChannels && !hasKeywords && !hasCompetitors then
    { results := [orchestratorNoProfile], invoked := [], persisted := [] }
  else
    let step1 : List AgentResult × List String × List NewInsight :=
      if hasChannels || hasCompetitors then
        let r := competitorRun
          { channelIds := some user.trackedChannels
            keywords := some (user.competitors.map (fun c => c ++ " review")) } env
        ([r], ["competitor-monitor"], tagInsights "competitor-monitor" r.insights)
      else ([], [], [])
    let step2 : List AgentResult × List String × List NewInsight :=
      if hasKeywords then
        let r := trendRun { keywords := user.keywords } env
        ([r], ["trend-spotter"], tagInsights "trend-spotter" r.insights)
      else ([], [], [])
    let step3 : List AgentResult × List String × List NewInsight :=
      if hasKeywords || hasCompetitors then
        let r := leadRun { keywords := user.keywords ++ user.competitors } env
        ([r], ["lead-qualifier"], tagInsights "lead-qualifier" r.insights)
      else ([], [], [])
    { results := step1.1 ++ step2.1 ++ step3.1
      invoked := step1.2.1 ++ step2.2.1 ++ step3.2.1
      persisted := step1.2.2 ++ step2.2.2 ++ step3.2.2 }

/-- An environment in which every upstream capability call fails. -/
def failEnv : AgentEnv :=
  { searchVideos := fun _ _ => .error "quotaExceeded"
    getVideoComments := fun _ _ => .error "quotaExceeded"
    getChannelVideos := fun _ _ => .error "quotaExceeded"
    nowMs := 0
    parseDate := fun _ => 0 }

/-- A comment whose text contains a request phrase. -/
def requestComment : YouTubeComment :=
  { commentId := "c1"
    authorName := "u1"
    text := "I wish they added dark mode"
    likeCount := 2
    publishedAt := "2026-01-01T00:00:00Z" }

/-! ## Theorems: classifier and agent claims -/

/-- C7: classifyComment checks the three vocabularies by case-insensitive
literal substring match in priority order request, then negative, then
positive, defaulting to neutral; in particular a text matching both a
request phrase and a negative word classifies as request, never negative. -/
theorem classifyComment_priority :
    (∀ text : String,
        requestSignals.any (fun s => strIncludes (jsToLower text) s) = true →
        negativeSignals.any (fun s => strIncludes (jsToLower text) s) = true →
        classifyComment text = Sentiment.request)
    ∧ (∀ text : String,
        requestSignals.any (fun s => strIncludes (jsToLower text) s) = true →
        classifyComment text = Sentiment.request)
    ∧ (∀ text : String,
        requestSignals.any (fun s => strIncludes (jsToLower text) s) = false →
        negativeSignals.any (fun s => strIncludes (jsToLower text) s) = true →
        classifyComment text = Sentiment.negative)
    ∧ (∀ text : String,
        requestSignals.any (fun s => strIncludes (jsToLower text) s) = false →
        negativeSignals.any (fun s => strIncludes (jsToLower text) s) = false →
        positiveSignals.any (fun s => strIncludes (jsToLower text) s) = true →
        classifyComment text = Sentiment.positive)
    ∧ (∀ text : String,
        requestSignals.any (fun s => strIncludes (jsToLower text) s) = false →
        negativeSignals.any (fun s => strIncludes (jsToLower text) s) = false →
        positiveSignals.any (fun s => strIncludes (jsToLower text) s) = false →
        classifyComment text = Sentiment.neutral) := by
  refine ⟨?_, ?_, ?_, ?_, ?_⟩
  · intro text h1 h2
    simp [classifyComment, h1]
  · intro text h1
    simp [classifyComment, h1]
  · intro text h1 h2
    simp [classifyComment, h1, h2]
  · intro text h1 h2 h3
    simp [classifyComment, h1, h2, h3]
  · intro text h1 h2 h3
    simp [classifyComment, h1, h2, h3]

/-- C7 witness: "I wish they added it, terrible" contains both the request
phrase "wish" and the negative word "terrible" and classifies as request. -/
theorem classifyComment_priority_witness :
    (requestSignals.any
      (fun s => strIncludes (jsToLower "I wish they added it, terrible") s) = true)
    ∧ (negativeSignals.any
      (fun s => strIncludes (jsToLower "I wish they added it, terrible") s) = true)
    ∧ classifyComment "I wish they added it, terrible" = Sentiment.request := by
  exact ⟨by decide, by decide,
    classifyComment_priority.1 "I wish they added it, terrible" (by decide) (by decide)⟩

/-- C8: whenever at least one fetched comment classifies as request, the
Sentiment Analyst's per-video output contains exactly one insight for the
requests, its kind is buying_signal (not sentiment), and its detail quotes at
most 5 examples. -/
theorem sentiment_request_cross_tag (videoId : String) (comments : List YouTubeComment)
    (h : requestsOf comments ≠ []) :
    ((sentimentProcessVideo videoId comments).countP
        (fun i => i.type == InsightType.buying_signal) = 1)
    ∧ ((sentimentProcessVideo videoId comments).filter
        (fun i => i.type == InsightType.buying_signal) =
        [ { type := InsightType.buying_signal
            title := toString (requestsOf comments).length ++ " feature requests / wishes"
            detail := String.intercalate "\n"
              (((requestsOf comments).take 5).map (fun p => fmtQuoteLikes p.1))
            source := { videoId := some videoId } } ])
    ∧ (((requestsOf comments).take 5).length ≤ 5) := by
  have hreq : (requestsOf comments).length > 0 := List.length_pos.mpr h
  have htake : ((requestsOf comments).take 5).length ≤ 5 := by
    rw [List.length_take]
    omega
  unfold sentimentProcessVideo
  by_cases hneg : (negativesOf comments).length > 0 <;>
    by_cases hpos : (positivesOf comments).length > 0 <;>
      simp [hneg, hpos, hreq, htake, List.countP_append, List.countP_cons,
        List.filter_append]

/-- C8 witness: a single comment containing "wish" yields exactly one
buying_signal insight. -/
theorem sentiment_request_cross_tag_witness :
    (requestsOf [requestComment] ≠ [])
    ∧ ((sentimentProcessVideo "v1" [requestComment]).countP
        (fun i => i.type == InsightType.buying_signal) = 1) := by
  have h : requestsOf [requestComment] ≠ [] := by decide
  exact ⟨h, (sentiment_request_cross_tag "v1" [requestComment] h).1⟩

/-- C9: every run of the four agents reports success for every parameter bag
and every capability environment — including environments in which every
upstream call fails, each failing item being skipped — while the structural
failure of dispatching an unknown agent id reports success = false. -/
theorem agents_success_policy :
    (∀ (p : CompetitorParams) (env : AgentEnv), (competitorRun p env).success = true)
    ∧ (∀ (p : SentimentParams) (env : AgentEnv), (sentimentRun p env).success = true)
    ∧ (∀ (p : TrendParams) (env : AgentEnv), (trendRun p env).success = true)
    ∧ (∀ (p : LeadParams) (env : AgentEnv), (leadRun p env).success = true)
    ∧ (∀ (id : String) (cp : CompetitorParams) (sp : SentimentParams)
        (tp : TrendParams) (lp : LeadParams) (env : AgentEnv),
        id ∉ (["competitor-monitor", "sentiment-analyst", "trend-spotter",
               "lead-qualifier"] : List String) →
        (runAgentDispatch id cp sp tp lp env).success = false) := by
  refine ⟨fun p env => rfl, fun p env => rfl, fun p env => rfl, fun p env => rfl, ?_⟩
  intro id cp sp tp lp env hid
  simp only [List.mem_cons, List.not_mem_nil, or_false, not_or] at hid
  obtain ⟨h1, h2, h3, h4⟩ := hid
  simp [runAgentDispatch, h1, h2, h3, h4]

/-- C9 witness: with every upstream capability failing, each agent still
reports success, and a bogus agent id yields the failure result. -/
theorem agents_success_policy_witness :
    ((competitorRun { channelIds := some ["UC1"], keywords := some ["acme review"] }
        failEnv).success = true)
    ∧ ((sentimentRun { videoIds := ["v1"] } failEnv).success = true)
    ∧ ((trendRun { keywords := ["crm"] } failEnv).success = true)
    ∧ ((leadRun { keywords := ["crm"] } failEnv).success = true)
    ∧ ("bogus-agent" ∉ (["competitor-monitor", "sentiment-analyst", "trend-spotter",
        "lead-qualifier"] : List String))
    ∧ ((runAgentDispatch "bogus-agent" {} { videoIds := [] } { keywords := [] }
        { keywords := [] } failEnv).success = false) := by
  refine ⟨agents_success_policy.1 _ _, agents_success_policy.2.1 _ _,
    agents_success_policy.2.2.1 _ _, agents_success_policy.2.2.2.1 _ _, by decide, ?_⟩
  exact agents_success_policy.2.2.2.2 "bogus-agent" {} { videoIds := [] }
    { keywords := [] } { keywords := [] } failEnv (by decide)

/-- C2: runAllAgents on a profile with no competitors, no keywords and no
tracked channels returns exactly the single structural-failure result, with
success = false, dispatches no agent, persists no insight, and its outcome is
independent of the capability environment (no external call can influence
it). -/
theorem runAllAgents_unconfigured (state : MemoryState) (env : AgentEnv)
    (hc : state.user.competitors = []) (hk : state.user.keywords = [])
    (ht : state.user.trackedChannels = []) :
    (runAllAgents state env =
      { results := [orchestratorNoProfile], invoked := [], persisted := [] })
    ∧ ((runAllAgents state env).results.length = 1)
    ∧ (∀ r ∈ (runAllAgents state env).results, r.success = false)
    ∧ (∀ env' : AgentEnv, runAllAgents state env' = runAllAgents state env) := by
  have key : ∀ e : AgentEnv, runAllAgents state e =
      { results := [orchestratorNoProfile], invoked := [], persisted := [] } := by
    intro e
    simp [runAllAgents, hc, hk, ht]
  refine ⟨key env, by rw [key env]; rfl, ?_, fun env' => by rw [key env', key env]⟩
  intro r hr
  rw [key env] at hr
  simp at hr
  rw [hr]
  rfl

/-- C2 witness: the default (freshly created) profile is unconfigured and
runAllAgents on it returns only the structural failure. -/
theorem runAllAgents_unconfigured_witness :
    ((defaultState "t").user.competitors = [])
    ∧ ((defaultState "t").user.keywords = [])
    ∧ ((defaultState "t").user.trackedChannels = [])
    ∧ (runAllAgents (defaultState "t") failEnv =
        { results := [orchestratorNoProfile], invoked := [], persisted := [] }) :=
  ⟨rfl, rfl, rfl, (runAllAgents_unconfigured (defaultState "t") failEnv rfl rfl rfl).1⟩
